import Mathlib

/-!
# Login handler of the Fastly integration backend

A shallow embedding of `internal/server/login.go` (package `server`) and of the
parts of the Go standard library that `loginHandler` calls: `net/url` query
parsing, `net/http` form parsing and response writing, and `encoding/json`
stream encoding.  The handler is a function from the response writer and the
request it is given to the state of the world when it returns: the response
writer, the warnings logged, and the sequence of calls it made.
-/

set_option linter.dupNamespace false

namespace Server

/-! ## Strings, errors and url.Values -/

/-- A Go string is a sequence of bytes; every byte is held as the `Char` with that code. -/
abbrev GoString := List Char

/-- The error values that reach the handler. -/
inductive Error
  /-- `url.EscapeError`: the offending escape, at most three bytes. -/
  | EscapeError (s : GoString)
  /-- `net/url`: "invalid semicolon separator in query". -/
  | invalidSemicolon
  /-- `net/http`: "missing form body". -/
  | missingFormBody
  /-- `net/http`: "http: POST too large". -/
  | postTooLarge
  /-- Any error raised outside the modelled code: media type, body read, connection write. -/
  | other (msg : String)
  deriving DecidableEq, Repr

/-- The Go idiom `if err == nil { err = e }`. -/
def firstErr (err e : Option Error) : Option Error :=
  match err with
  | none => e
  | some x => some x

/-- A `url.Values` map, held as its (key, value) pairs in insertion order, so that
`m[key]` is the list of the values stored under `key`, oldest first. -/
abbrev Values := List (GoString × GoString)

/-- The Go index expression `m[key]` on `url.Values`. -/
def Values.index (m : Values) (key : GoString) : List GoString :=
  m.filterMap (fun kv => if kv.1 = key then some kv.2 else none)

/-- The function `ishex` of `net/url`. -/
def ishex (c : Char) : Bool :=
  (48 ≤ c.toNat && c.toNat ≤ 57) || (97 ≤ c.toNat && c.toNat ≤ 102) ||
    (65 ≤ c.toNat && c.toNat ≤ 70)

/-- The function `unhex` of `net/url`. -/
def unhex (c : Char) : Nat :=
  if 48 ≤ c.toNat ∧ c.toNat ≤ 57 then c.toNat - 48
  else if 97 ≤ c.toNat ∧ c.toNat ≤ 102 then c.toNat - 97 + 10
  else if 65 ≤ c.toNat ∧ c.toNat ≤ 70 then c.toNat - 65 + 10
  else 0

/-- The function `url.QueryUnescape`: `%XY` becomes the byte `0xXY`, `+` becomes a
space; a `%` not followed by two hex digits is an `EscapeError` carrying the
text from that `%` on, cut to three bytes. -/
def QueryUnescape : GoString → Except Error GoString
  | [] => .ok []
  | c :: rest =>
    if c = '%' then
      match rest with
      | a :: b :: rest2 =>
        if ishex a && ishex b then
          match QueryUnescape rest2 with
          | .ok t => .ok (Char.ofNat (unhex a * 16 + unhex b) :: t)
          | .error e => .error e
        else .error (.EscapeError [c, a, b])
      | short => .error (.EscapeError (c :: short))
    else
      match QueryUnescape rest with
      | .ok t => .ok ((if c = '+' then ' ' else c) :: t)
      | .error e => .error e

/-- The pieces of a string between the occurrences of `sep`, in order:
what repeated `strings.Cut(query, sep)` yields. -/
def cutAll (sep : Char) : GoString → List GoString
  | [] => [[]]
  | c :: cs =>
    if c = sep then [] :: cutAll sep cs
    else
      match cutAll sep cs with
      | [] => [[c]]
      | seg :: segs => (c :: seg) :: segs

/-- The function `strings.Cut(s, "=")`: the text before the first `=` and the text after it
(empty when there is none). -/
def cutEq : GoString → GoString × GoString
  | [] => ([], [])
  | c :: cs => if c = '=' then ([], cs) else ((c :: (cutEq cs).1), (cutEq cs).2)

/-- One turn of the loop of `parseQuery` in `net/url`, on the piece `key` cut off at `&`. -/
def parseQueryStep (acc : Values × Option Error) (key : GoString) : Values × Option Error :=
  if (';' : Char) ∈ key then (acc.1, some .invalidSemicolon)
  else if key = [] then acc
  else
    match QueryUnescape (cutEq key).1 with
    | .error err1 => (acc.1, firstErr acc.2 (some err1))
    | .ok k =>
      match QueryUnescape (cutEq key).2 with
      | .error err1 => (acc.1, firstErr acc.2 (some err1))
      | .ok v => (acc.1 ++ [(k, v)], acc.2)

/-- The function `url.ParseQuery`: it always returns the map of all the valid pairs found,
together with the error of a pair it had to skip, if any. -/
def ParseQuery (query : GoString) : Values × Option Error :=
  (cutAll '&' query).foldl parseQueryStep ([], none)

/-! ## The request and its form -/

/-- The parsed `url.URL` of the request; only the query is read here. -/
structure URL where
  RawQuery : GoString

/-- A request body as a reader: it yields `data` and then ends, with `err` if reading breaks
off and with end-of-file otherwise. -/
structure Body where
  data : GoString
  err : Option Error

/-- An `http.Request` as the server hands it to a handler, with `Form` and `PostForm` still
unset. `mediaType` and `mediaTypeErr` are what `mime.ParseMediaType` returns for the
Content-Type header (an absent header counting as application/octet-stream). -/
structure Request where
  Method : String
  URL : Option URL
  mediaType : String
  mediaTypeErr : Option Error
  Body : Option Body

/-- The fields `PostForm` and `Form` of a request once `ParseForm` has set them. -/
structure ParsedForm where
  PostForm : Values
  Form : Values

/-- The limit of `parsePostForm` on a form body: 10 MB. -/
def maxFormSize : Nat := 10 * 2 ^ 20

/-- The call `io.ReadAll(io.LimitReader(r.Body, maxFormSize+1))`. -/
def readLimited (b : Body) : GoString × Option Error :=
  if maxFormSize + 1 ≤ b.data.length then (b.data.take (maxFormSize + 1), none)
  else (b.data, b.err)

/-- The function `parsePostForm` of `net/http`; `none` is the nil map. -/
def parsePostForm (r : Request) : Option Values × Option Error :=
  match r.Body with
  | none => (none, some .missingFormBody)
  | some body =>
    if r.mediaType = "application/x-www-form-urlencoded" then
      match (readLimited body).2 with
      | some e => (none, firstErr r.mediaTypeErr (some e))
      | none =>
        if maxFormSize < (readLimited body).1.length then (none, some .postTooLarge)
        else
          (some (ParseQuery (readLimited body).1).1,
            firstErr r.mediaTypeErr (ParseQuery (readLimited body).1).2)
    else (none, r.mediaTypeErr)

/-- The first half of `Request.ParseForm`: the body form of a POST, PUT or PATCH request. -/
def postPart (r : Request) : Option Values × Option Error :=
  if r.Method = "POST" ∨ r.Method = "PUT" ∨ r.Method = "PATCH" then parsePostForm r
  else (none, none)

/-- The second half of `Request.ParseForm`: the values of the URL query. -/
def queryPart (r : Request) : Values × Option Error :=
  match r.URL with
  | some u => ParseQuery u.RawQuery
  | none => ([], none)

/-- The method `Request.ParseForm`: `PostForm` holds the body values, `Form` the body
values followed by the query values, and the error is the first one met. -/
def ParseForm (r : Request) : ParsedForm × Option Error :=
  ({ PostForm := (postPart r).1.getD [],
     Form := (postPart r).1.getD [] ++ (queryPart r).1 },
   firstErr (postPart r).2 (queryPart r).2)

/-- The method `Request.FormValue` on a request whose form is parsed: the first value
stored under `key`, or the empty string. -/
def FormValue (f : ParsedForm) (key : GoString) : GoString :=
  match f.Form.index key with
  | v :: _ => v
  | [] => []

/-! ## The response writer -/

/-- A response header map. -/
abbrev Header := List (String × List String)

/-- The method `Header.Set`: the value replaces what was stored under the key (the one key
set here is written in its canonical form already). -/
def Header.Set (h : Header) (key value : String) : Header :=
  (key, [value]) :: h.filter (fun kv => kv.1 ≠ key)

/-- The method `Header.Get`: the first value stored under the key, or the empty string. -/
def Header.Get (h : Header) (key : String) : String :=
  match h.lookup key with
  | some (v :: _) => v
  | _ => ""

/-- The constant `http.StatusOK`. -/
def StatusOK : Nat := 200

/-- The constant `http.StatusUnauthorized`. -/
def StatusUnauthorized : Nat := 401

/-- An `http.ResponseWriter`: the header map, the status code fixed by the first
`WriteHeader` (none while the header is not written), the body bytes accepted so far,
and how the connection answers a `Write`: from the bytes accepted so far and the bytes
offered, how many it takes and the error it reports. -/
structure ResponseWriter where
  header : Header
  status : Option Nat
  body : GoString
  accept : GoString → GoString → Nat × Option Error

/-- The status line the server sends: the code of the first `WriteHeader`, else 200. -/
def ResponseWriter.statusCode (w : ResponseWriter) : Nat :=
  w.status.getD StatusOK

/-- The method `ResponseWriter.Write`: when `WriteHeader` has not been called it counts as
called with `http.StatusOK`; then the connection takes the bytes it accepts. -/
def ResponseWriter.Write (w : ResponseWriter) (p : GoString) :
    ResponseWriter × Nat × Option Error :=
  ({ w with status := some (w.status.getD StatusOK),
            body := w.body ++ p.take (w.accept w.body p).1 },
   (w.accept w.body p).1, (w.accept w.body p).2)

/-! ## The JSON results -/

/-- The struct `Description` of login.go. -/
structure Description where
  Code : Int
  Description : String
  deriving DecidableEq, Repr

/-- The struct `ErrorResult` of login.go. -/
structure ErrorResult where
  Error : Description
  deriving DecidableEq, Repr

/-- The struct `MessageResult` of login.go. -/
structure MessageResult where
  Message : Description
  deriving DecidableEq, Repr

/-- The values the handler passes to `Encode`. -/
inductive Result
  | error (v : ErrorResult)
  | message (v : MessageResult)
  deriving DecidableEq, Repr

/-- The JSON text of a Go `int`. -/
def appendInt (n : Int) : GoString :=
  if n < 0 then '-' :: Nat.toDigits 10 n.natAbs else Nat.toDigits 10 n.natAbs

/-- A hexadecimal digit, lower case. -/
def hexDigit (n : Nat) : Char :=
  Nat.digitChar (n % 16)

/-- The JSON text of one character of a string, as `encoding/json` writes it with HTML
escaping on (the default of an `Encoder`): the quote and the backslash get a backslash,
line feed, carriage return and tab their letter, other control characters and
`<`, `>`, `&` the form `\u00XY`, U+2028 and U+2029 the form `\u202X`; every other
character is copied, as its UTF-8 bytes. (From Go 1.22 on, backspace and form feed get a
letter too; the handler encodes neither.) -/
def appendChar (c : Char) : GoString :=
  if c.toNat < 128 then
    if c = Char.ofNat 34 ∨ c = Char.ofNat 92 then [Char.ofNat 92, c]
    else if c = Char.ofNat 10 then [Char.ofNat 92, 'n']
    else if c = Char.ofNat 13 then [Char.ofNat 92, 'r']
    else if c = Char.ofNat 9 then [Char.ofNat 92, 't']
    else if c.toNat < 32 ∨ c = '<' ∨ c = '>' ∨ c = '&' then
      [Char.ofNat 92, 'u', '0', '0', hexDigit (c.toNat / 16), hexDigit c.toNat]
    else [c]
  else if c.toNat = 8232 ∨ c.toNat = 8233 then
    [Char.ofNat 92, 'u', '2', '0', '2', hexDigit c.toNat]
  else (String.utf8EncodeChar c).map (fun b => Char.ofNat b.toNat)

/-- The JSON text of a Go string holding valid UTF-8, between quotes. -/
def appendString (s : String) : GoString :=
  Char.ofNat 34 :: (s.toList.flatMap appendChar ++ [Char.ofNat 34])

/-- The JSON text of a `Description`: its two fields under their `json` tags, in the
order of declaration. -/
def marshalDescription (d : Description) : GoString :=
  "\x7b\"code\":".toList ++ appendInt d.Code ++ ",\"description\":".toList ++
    appendString d.Description ++ "\x7d".toList

/-- The function `json.Marshal` on the two result structs. -/
def marshal : Result → GoString
  | .error v => "\x7b\"error\":".toList ++ marshalDescription v.Error ++ "\x7d".toList
  | .message v => "\x7b\"message\":".toList ++ marshalDescription v.Message ++ "\x7d".toList

/-! ## The handler -/

/-- One call of `logrus.Warn`: the text passed first and the error whose message is
passed second. -/
structure Warning where
  text : String
  err : Error
  deriving DecidableEq, Repr

/-- The calls the handler makes, directly or through the encoder. -/
inductive Call
  | setCorsAllowAll
  | ParseForm (err : Option Error)
  | FormValue (key : GoString)
  | Warn (entry : Warning)
  | Encode (v : Result)
  | Write (p : GoString) (n : Nat) (err : Option Error)
  | WriteHeader (statusCode : Nat)
  deriving DecidableEq, Repr

/-- What a run of the handler can change and what it leaves behind: the response writer
of the request, the warnings held by the standard logger of logrus, which all invocations
in the process share, and the calls made, oldest first. -/
structure World where
  w : ResponseWriter
  log : List Warning
  trace : List Call

/-- Add a call to the record of calls. -/
def World.record (s : World) (c : Call) : World :=
  { s with trace := s.trace ++ [c] }

/-- Modelled from the spec: setCorsAllowAll, a function of package server defined outside
login.go. The spec says it sets the permissive CORS headers, naming
`Access-Control-Allow-Origin: *`; it touches neither the status nor the body. -/
def setCorsAllowAll (s : World) : World :=
  { s.record .setCorsAllowAll with
    w := { s.w with header := s.w.header.Set "Access-Control-Allow-Origin" "*" } }

/-- The call `logrus.Warn(text, err.Error())`. -/
def Warn (s : World) (text : String) (err : Error) : World :=
  { s.record (.Warn { text := text, err := err }) with
    log := s.log ++ [{ text := text, err := err }] }

/-- The call `json.NewEncoder(w).Encode(v)`: the JSON text of `v` and a line feed go to
the writer in one `Write`, whose error is returned. Marshalling these structs cannot fail. -/
def Encode (s : World) (v : Result) : World × Option Error :=
  ({ (s.record (.Encode v)).record
        (.Write (marshal v ++ [Char.ofNat 10])
          (s.w.Write (marshal v ++ [Char.ofNat 10])).2.1
          (s.w.Write (marshal v ++ [Char.ofNat 10])).2.2) with
     w := (s.w.Write (marshal v ++ [Char.ofNat 10])).1 },
   (s.w.Write (marshal v ++ [Char.ofNat 10])).2.2)

/-- The state after `setCorsAllowAll(w)`, `err := r.ParseForm()` and the warning that
follows a failure, for a run that starts in the world `s`. -/
def afterParse (s : World) (r : Request) : World :=
  match (ParseForm r).2 with
  | some err =>
    Warn ((setCorsAllowAll s).record (.ParseForm (some err))) "Form parse error: " err
  | none => (setCorsAllowAll s).record (.ParseForm none)

/-- The state after the two `r.FormValue` calls. -/
def afterRead (s : World) (r : Request) : World :=
  ((afterParse s r).record (.FormValue "login".toList)).record (.FormValue "password".toList)

/-- The value `login := r.FormValue("login")` of the handler. -/
def login (r : Request) : GoString :=
  FormValue (ParseForm r).1 "login".toList

/-- The value `password := r.FormValue("password")` of the handler. -/
def password (r : Request) : GoString :=
  FormValue (ParseForm r).1 "password".toList

/-- The result encoded on the failure path. -/
def wrongLogin : Result :=
  .error { Error := { Code := StatusUnauthorized, Description := "Wrong login or password" } }

/-- The result encoded on the success path. -/
def loggedIn : Result :=
  .message { Message := { Code := StatusOK, Description := "You are successfully logged in!" } }

/-- The body of `loginHandler` of login.go, run in the world `s`: `s.w` is the response
writer it is given, `s.log` what the logger of the process has taken from earlier
invocations, `s.trace` the calls made before. -/
def loginHandlerFrom (s : World) (r : Request) : World :=
  if login r ≠ "human".toList ∨ password r ≠ "iamnotbot".toList then
    match (Encode (afterRead s r) wrongLogin).2 with
    | some err => Warn (Encode (afterRead s r) wrongLogin).1 "ErrorResult encode error: " err
    | none => (Encode (afterRead s r) wrongLogin).1
  else
    match (Encode (afterRead s r) loggedIn).2 with
    | some success => Warn (Encode (afterRead s r) loggedIn).1 "ErrorResult encode error: " success
    | none => (Encode (afterRead s r) loggedIn).1

/-- The world of a first invocation on the writer `w`: nothing logged, nothing called. -/
def fresh (w : ResponseWriter) : World :=
  { w := w, log := [], trace := [] }

/-- The function `loginHandler` of login.go, observed on its own: the writer it leaves,
the warnings it logs and the calls it makes. -/
def loginHandler (w : ResponseWriter) (r : Request) : World :=
  loginHandlerFrom (fresh w) r

/-! ## Predicates and sample inputs -/

/-- Every `Write` on the writer takes all the bytes offered and reports no error. -/
def WritesSucceed (w : ResponseWriter) : Prop :=
  ∀ b p, w.accept b p = (p.length, none)

/-- The request is turned down: the condition of the `if` of the handler. -/
def Rejected (r : Request) : Prop :=
  login r ≠ "human".toList ∨ password r ≠ "iamnotbot".toList

/-- Whether a call is an `Encode`. -/
def Call.isEncode : Call → Bool
  | .Encode _ => true
  | _ => false

/-- Whether a call is a `Write` on the response writer. -/
def Call.isWrite : Call → Bool
  | .Write _ _ _ => true
  | _ => false

/-- The success body as the spec prints it. -/
def successJSON : GoString :=
  "\x7b\"message\":\x7b\"code\":200,\"description\":\"You are successfully logged in!\"\x7d\x7d".toList

/-- The failure body as the spec prints it. -/
def failureJSON : GoString :=
  "\x7b\"error\":\x7b\"code\":401,\"description\":\"Wrong login or password\"\x7d\x7d".toList

/-- The line feed that `Encode` puts after the JSON text. -/
def lineFeed : GoString := [Char.ofNat 10]

/-- A fresh response writer on a connection that takes every byte. -/
def okWriter : ResponseWriter :=
  { header := [], status := none, body := [], accept := fun _ p => (p.length, none) }

/-- A fresh response writer on a connection that takes five bytes of a write and fails. -/
def brokenWriter : ResponseWriter :=
  { header := [], status := none, body := [],
    accept := fun _ _ => (5, some (.other "write: broken pipe")) }

/-- A GET request with the given query string and no body. -/
def getRequest (query : String) : Request :=
  { Method := "GET", URL := some { RawQuery := query.toList },
    mediaType := "application/octet-stream", mediaTypeErr := none, Body := none }

/-- A POST request with a form-encoded body and the given query string. -/
def postRequest (body query : String) : Request :=
  { Method := "POST", URL := some { RawQuery := query.toList },
    mediaType := "application/x-www-form-urlencoded", mediaTypeErr := none,
    Body := some { data := body.toList, err := none } }

/-- The pair that one piece of a form text stands for, when it decodes: there is none for
an empty piece, for a piece holding a semicolon, and for one whose key or value has a bad
escape. -/
def decodePair (seg : GoString) : Option (GoString × GoString) :=
  if (';' : Char) ∈ seg then none
  else if seg = [] then none
  else
    match QueryUnescape (cutEq seg).1, QueryUnescape (cutEq seg).2 with
    | .ok k, .ok v => some (k, v)
    | _, _ => none

/-- The pairs of a form text that decode, in the order of the text. -/
def validPairs (text : GoString) : Values :=
  (cutAll '&' text).filterMap decodePair

/-- The form text a request carries in its body: the body of a POST, PUT or PATCH request
of media type application/x-www-form-urlencoded that reads without error and is no longer
than the limit; nothing in every other case. -/
def bodyText (r : Request) : GoString :=
  match r.Body with
  | none => []
  | some body =>
    if (r.Method = "POST" ∨ r.Method = "PUT" ∨ r.Method = "PATCH") ∧
        r.mediaType = "application/x-www-form-urlencoded" ∧
        body.err = none ∧ body.data.length ≤ maxFormSize then body.data
    else []

/-- The form text a request carries in its URL: the raw query. -/
def queryText (r : Request) : GoString :=
  match r.URL with
  | some u => u.RawQuery
  | none => []

/-- The pairs of a request that decode: those of the body text, then those of the query. -/
def requestPairs (r : Request) : Values :=
  validPairs (bodyText r) ++ validPairs (queryText r)

/-- A string that form encoding leaves as it is and that holds no separator. -/
def Plain (t : GoString) : Prop :=
  ∀ c ∈ t, c ≠ '&' ∧ c ≠ '=' ∧ c ≠ ';' ∧ c ≠ '%' ∧ c ≠ '+'

instance instDecidablePlain (t : GoString) : Decidable (Plain t) := by
  unfold Plain
  infer_instance

/-- The form text that lists the given pairs in order: `k=v` pieces joined by `&`. -/
def formText : List (GoString × GoString) → GoString
  | [] => []
  | kv :: rest =>
    match rest with
    | [] => kv.1 ++ '=' :: kv.2
    | _ :: _ => kv.1 ++ '=' :: kv.2 ++ '&' :: formText rest

/-- A world in which the logger already holds a warning of an earlier invocation. -/
def usedWorld (w : ResponseWriter) : World :=
  { w := w,
    log := [{ text := "Form parse error: ", err := .missingFormBody }],
    trace := [.setCorsAllowAll] }

/-- The result the handler encodes: which branch of its `if` is taken. -/
def answer (r : Request) : Result :=
  if login r ≠ "human".toList ∨ password r ≠ "iamnotbot".toList then wrongLogin else loggedIn

/-- The bytes the handler hands to the writer in its one `Write`. -/
def payload (r : Request) : GoString :=
  marshal (answer r) ++ lineFeed

/-! ## Lemmas on the run of the handler -/

theorem marshal_loggedIn : marshal loggedIn = successJSON := by decide

theorem marshal_wrongLogin : marshal wrongLogin = failureJSON := by decide

theorem afterRead_w_from (s : World) (r : Request) :
    (afterRead s r).w =
      { s.w with header := s.w.header.Set "Access-Control-Allow-Origin" "*" } := by
  unfold afterRead afterParse
  cases (ParseForm r).2 <;> rfl

theorem afterRead_log_from (s : World) (r : Request) :
    (afterRead s r).log =
      s.log ++ (ParseForm r).2.toList.map (Warning.mk "Form parse error: ") := by
  unfold afterRead afterParse
  cases (ParseForm r).2 <;> simp [Warn, World.record, setCorsAllowAll]

theorem afterRead_trace_from (s : World) (r : Request) :
    (afterRead s r).trace =
      s.trace ++ ([Call.setCorsAllowAll, Call.ParseForm (ParseForm r).2] ++
        (ParseForm r).2.toList.map (fun e => Call.Warn (Warning.mk "Form parse error: " e)) ++
        [Call.FormValue "login".toList, Call.FormValue "password".toList]) := by
  unfold afterRead afterParse
  cases (ParseForm r).2 <;> simp [Warn, World.record, setCorsAllowAll]

theorem from_answer (s : World) (r : Request) :
    loginHandlerFrom s r =
      match (Encode (afterRead s r) (answer r)).2 with
      | some err => Warn (Encode (afterRead s r) (answer r)).1 "ErrorResult encode error: " err
      | none => (Encode (afterRead s r) (answer r)).1 := by
  unfold loginHandlerFrom answer
  split <;> rfl

theorem encode_err_from (s : World) (r : Request) :
    (Encode (afterRead s r) (answer r)).2 = (s.w.accept s.w.body (payload r)).2 := by
  simp [Encode, ResponseWriter.Write, afterRead_w_from, payload, lineFeed]

theorem from_w (s : World) (r : Request) :
    (loginHandlerFrom s r).w =
      (ResponseWriter.Write
        { s.w with header := s.w.header.Set "Access-Control-Allow-Origin" "*" }
        (payload r)).1 := by
  rw [from_answer, ← afterRead_w_from s r]
  split <;> rfl

theorem from_log (s : World) (r : Request) :
    (loginHandlerFrom s r).log =
      s.log ++ ((ParseForm r).2.toList.map (Warning.mk "Form parse error: ") ++
        (s.w.accept s.w.body (payload r)).2.toList.map
          (Warning.mk "ErrorResult encode error: ")) := by
  rw [from_answer, ← List.append_assoc, ← afterRead_log_from s r]
  have hE := encode_err_from s r
  split <;> rename_i h <;> rw [h] at hE <;> simp [← hE, Warn, Encode, World.record]

theorem from_trace (s : World) (r : Request) :
    (loginHandlerFrom s r).trace =
      s.trace ++ ([Call.setCorsAllowAll, Call.ParseForm (ParseForm r).2] ++
        (ParseForm r).2.toList.map (fun e => Call.Warn (Warning.mk "Form parse error: " e)) ++
        [Call.FormValue "login".toList, Call.FormValue "password".toList] ++
        [Call.Encode (answer r),
          Call.Write (payload r) (s.w.accept s.w.body (payload r)).1
            (s.w.accept s.w.body (payload r)).2] ++
        (s.w.accept s.w.body (payload r)).2.toList.map
          (fun e => Call.Warn (Warning.mk "ErrorResult encode error: " e))) := by
  rw [from_answer]
  have hT := afterRead_trace_from s r
  have hE := encode_err_from s r
  split <;> rename_i h <;> rw [h] at hE <;> simp only [payload, lineFeed] at hE <;>
    simp [← hE, hT, Warn, Encode, World.record, ResponseWriter.Write, afterRead_w_from,
      payload, lineFeed]

theorem afterRead_w (w : ResponseWriter) (r : Request) :
    (afterRead (fresh w) r).w =
      { w with header := w.header.Set "Access-Control-Allow-Origin" "*" } :=
  afterRead_w_from (fresh w) r

theorem loginHandler_w_rejected (w : ResponseWriter) (r : Request) (h : Rejected r) :
    (loginHandler w r).w =
      ((afterRead (fresh w) r).w.Write (marshal wrongLogin ++ lineFeed)).1 := by
  unfold loginHandler loginHandlerFrom
  unfold Rejected at h
  rw [if_pos h]
  split <;> rfl

theorem loginHandler_w_accepted (w : ResponseWriter) (r : Request) (h : ¬ Rejected r) :
    (loginHandler w r).w =
      ((afterRead (fresh w) r).w.Write (marshal loggedIn ++ lineFeed)).1 := by
  unfold loginHandler loginHandlerFrom
  unfold Rejected at h
  rw [if_neg h]
  split <;> rfl

theorem write_body_of_succeed (w : ResponseWriter) (p : GoString)
    (hw : ∀ b q, w.accept b q = (q.length, none)) :
    (w.Write p).1.body = w.body ++ p := by
  simp [ResponseWriter.Write, hw]

theorem answer_cases (r : Request) : answer r = wrongLogin ∨ answer r = loggedIn := by
  unfold answer
  split
  · exact Or.inl rfl
  · exact Or.inr rfl

theorem loginHandler_w (w : ResponseWriter) (r : Request) :
    (loginHandler w r).w = ((afterRead (fresh w) r).w.Write (payload r)).1 := by
  rw [afterRead_w]
  exact from_w (fresh w) r

theorem loginHandler_log (w : ResponseWriter) (r : Request) :
    (loginHandler w r).log =
      (ParseForm r).2.toList.map (Warning.mk "Form parse error: ") ++
        (w.accept w.body (payload r)).2.toList.map (Warning.mk "ErrorResult encode error: ") := by
  unfold loginHandler
  rw [from_log]
  rfl

theorem loginHandler_trace (w : ResponseWriter) (r : Request) :
    (loginHandler w r).trace =
      [Call.setCorsAllowAll, Call.ParseForm (ParseForm r).2] ++
        (ParseForm r).2.toList.map (fun e => Call.Warn (Warning.mk "Form parse error: " e)) ++
        [Call.FormValue "login".toList, Call.FormValue "password".toList] ++
        [Call.Encode (answer r),
          Call.Write (payload r) (w.accept w.body (payload r)).1 (w.accept w.body (payload r)).2] ++
        (w.accept w.body (payload r)).2.toList.map
          (fun e => Call.Warn (Warning.mk "ErrorResult encode error: " e)) := by
  unfold loginHandler
  rw [from_trace]
  rfl

theorem trace_encodes (w : ResponseWriter) (r : Request) :
    (loginHandler w r).trace.filter Call.isEncode = [Call.Encode (answer r)] := by
  rw [loginHandler_trace]
  cases (ParseForm r).2 <;> cases (w.accept w.body (payload r)).2 <;>
    simp [Call.isEncode, List.filter]

theorem trace_writes (w : ResponseWriter) (r : Request) :
    (loginHandler w r).trace.filter Call.isWrite =
      [Call.Write (payload r) (w.accept w.body (payload r)).1 (w.accept w.body (payload r)).2] := by
  rw [loginHandler_trace]
  cases (ParseForm r).2 <;> cases (w.accept w.body (payload r)).2 <;>
    simp [Call.isWrite, List.filter]

theorem loginHandler_body (w : ResponseWriter) (r : Request) :
    (loginHandler w r).w.body =
      w.body ++ (payload r).take (w.accept w.body (payload r)).1 := by
  rw [loginHandler_w, afterRead_w]
  rfl

theorem index_append (a b : Values) (key : GoString) :
    Values.index (a ++ b) key = Values.index a key ++ Values.index b key := by
  simp [Values.index, List.filterMap_append]

/-! ## Lemmas on the form of a request -/

theorem parseQueryStep_values (acc : Values × Option Error) (seg : GoString) :
    (parseQueryStep acc seg).1 = acc.1 ++ (decodePair seg).toList := by
  unfold parseQueryStep decodePair
  split
  · simp
  · split
    · simp
    · cases QueryUnescape (cutEq seg).1 <;> cases QueryUnescape (cutEq seg).2 <;> simp

theorem foldl_parseQueryStep_values (segs : List GoString) (acc : Values × Option Error) :
    (segs.foldl parseQueryStep acc).1 = acc.1 ++ segs.filterMap decodePair := by
  induction segs generalizing acc with
  | nil => simp
  | cons seg rest ih =>
    rw [List.foldl_cons, ih, parseQueryStep_values]
    cases h : decodePair seg <;> simp [List.filterMap_cons, h]

theorem ParseQuery_values (text : GoString) : (ParseQuery text).1 = validPairs text := by
  unfold ParseQuery validPairs
  rw [foldl_parseQueryStep_values]
  rfl

theorem validPairs_nil : validPairs [] = [] := by decide

theorem postPart_values (r : Request) : (postPart r).1.getD [] = validPairs (bodyText r) := by
  unfold postPart bodyText parsePostForm readLimited
  cases hb : r.Body with
  | none =>
    by_cases hm : r.Method = "POST" ∨ r.Method = "PUT" ∨ r.Method = "PATCH" <;>
      simp [hm, validPairs_nil]
  | some body =>
    by_cases hm : r.Method = "POST" ∨ r.Method = "PUT" ∨ r.Method = "PATCH"
    · by_cases ht : r.mediaType = "application/x-www-form-urlencoded"
      · by_cases hlen : maxFormSize + 1 ≤ body.data.length
        · have h1 : ¬ body.data.length ≤ maxFormSize := by omega
          have h2 : maxFormSize < (List.take (maxFormSize + 1) body.data).length := by
            rw [List.length_take]
            omega
          simp [hm, ht, hlen, h1, h2, validPairs_nil]
        · have h1 : body.data.length ≤ maxFormSize := by omega
          have h2 : ¬ maxFormSize < body.data.length := by omega
          cases he : body.err with
          | none => simp [hm, ht, hlen, h1, h2, he, ParseQuery_values]
          | some e => simp [hm, ht, hlen, he, validPairs_nil]
      · simp [hm, ht, validPairs_nil]
    · simp [hm, validPairs_nil]

theorem queryPart_values (r : Request) : (queryPart r).1 = validPairs (queryText r) := by
  unfold queryPart queryText
  cases r.URL with
  | none => simp [validPairs_nil]
  | some u => simp [ParseQuery_values]

theorem Form_values (r : Request) : (ParseForm r).1.Form = requestPairs r := by
  unfold ParseForm requestPairs
  simp only [postPart_values, queryPart_values]

theorem FormValue_head (f : ParsedForm) (key : GoString) :
    FormValue f key = ((f.Form.index key).head?).getD [] := by
  unfold FormValue
  split <;> rename_i h <;> rw [h] <;> rfl

theorem cutAll_piece (sep : Char) (t : GoString) (h : sep ∉ t) : cutAll sep t = [t] := by
  induction t with
  | nil => rfl
  | cons c cs ih =>
    have hc : c ≠ sep := fun e => h (by simp [e])
    have hcs : sep ∉ cs := fun e => h (by simp [e])
    simp [cutAll, hc, ih hcs]

theorem cutAll_append (sep : Char) (t u : GoString) (h : sep ∉ t) :
    cutAll sep (t ++ sep :: u) = t :: cutAll sep u := by
  induction t with
  | nil => simp [cutAll]
  | cons c cs ih =>
    have hc : c ≠ sep := fun e => h (by simp [e])
    have hcs : sep ∉ cs := fun e => h (by simp [e])
    simp [cutAll, hc, ih hcs]

theorem QueryUnescape_plain (t : GoString) (h : ∀ c ∈ t, c ≠ '%' ∧ c ≠ '+') :
    QueryUnescape t = .ok t := by
  induction t with
  | nil => rfl
  | cons c cs ih =>
    have hc := h c (by simp)
    have hcs : ∀ d ∈ cs, d ≠ '%' ∧ d ≠ '+' := fun d hd => h d (by simp [hd])
    unfold QueryUnescape
    rw [if_neg hc.1, ih hcs]
    simp [hc.2]

theorem cutEq_piece (k v : GoString) (h : '=' ∉ k) : cutEq (k ++ '=' :: v) = (k, v) := by
  induction k with
  | nil => simp [cutEq]
  | cons c cs ih =>
    have hc : c ≠ '=' := fun e => h (by simp [e])
    have hcs : '=' ∉ cs := fun e => h (by simp [e])
    simp [cutEq, hc, ih hcs]

theorem decodePair_plain (k v : GoString) (hk : Plain k) (hv : Plain v) :
    decodePair (k ++ '=' :: v) = some (k, v) := by
  have hsemi : (';' : Char) ∉ k ++ '=' :: v := by
    intro hmem
    rcases List.mem_append.mp hmem with h | h
    · exact (hk _ h).2.2.1 rfl
    · rcases List.mem_cons.mp h with h | h
      · exact absurd h (by decide)
      · exact (hv _ h).2.2.1 rfl
  have hne : k ++ '=' :: v ≠ [] := by simp
  have heq : '=' ∉ k := fun h => (hk _ h).2.1 rfl
  unfold decodePair
  rw [if_neg hsemi, if_neg hne, cutEq_piece k v heq,
    QueryUnescape_plain k (fun c hc => ⟨(hk c hc).2.2.2.1, (hk c hc).2.2.2.2⟩),
    QueryUnescape_plain v (fun c hc => ⟨(hv c hc).2.2.2.1, (hv c hc).2.2.2.2⟩)]

theorem piece_no_amp (k v : GoString) (hk : Plain k) (hv : Plain v) :
    '&' ∉ k ++ '=' :: v := by
  intro hmem
  rcases List.mem_append.mp hmem with h | h
  · exact (hk _ h).1 rfl
  · rcases List.mem_cons.mp h with h | h
    · exact absurd h (by decide)
    · exact (hv _ h).1 rfl

theorem validPairs_formText (pairs : List (GoString × GoString))
    (h : ∀ kv ∈ pairs, Plain kv.1 ∧ Plain kv.2) : validPairs (formText pairs) = pairs := by
  induction pairs with
  | nil => exact validPairs_nil
  | cons kv rest ih =>
    have hkv := h kv (by simp)
    have hrest : ∀ x ∈ rest, Plain x.1 ∧ Plain x.2 := fun x hx => h x (by simp [hx])
    cases rest with
    | nil =>
      simp only [formText, validPairs]
      rw [cutAll_piece _ _ (piece_no_amp kv.1 kv.2 hkv.1 hkv.2)]
      simp [decodePair_plain kv.1 kv.2 hkv.1 hkv.2]
    | cons kv2 rest2 =>
      have ih2 := ih hrest
      show validPairs ((kv.1 ++ '=' :: kv.2) ++ '&' :: formText (kv2 :: rest2)) = _
      unfold validPairs at ih2 ⊢
      rw [cutAll_append _ _ _ (piece_no_amp kv.1 kv.2 hkv.1 hkv.2), List.filterMap_cons,
        decodePair_plain kv.1 kv.2 hkv.1 hkv.2, ih2]

/-- A run on a connection that breaks: five bytes of the failure body arrive, the
write error is logged, and nothing more is written. -/
theorem brokenWriter_run :
    (loginHandler brokenWriter (getRequest "")).w.body = "\x7b\"err".toList ∧
    (loginHandler brokenWriter (getRequest "")).log =
      [{ text := "ErrorResult encode error: ", err := .other "write: broken pipe" }] := by
  constructor <;> decide

/-! ## The claims -/

/-- C1 (as amended): when the form values are login = "human" and password = "iamnotbot" and
the writes succeed, the bytes the handler adds to the response body are the success JSON
followed by one line feed. -/
theorem C1_success_body (w : ResponseWriter) (r : Request) (hw : WritesSucceed w)
    (hl : login r = "human".toList) (hp : password r = "iamnotbot".toList) :
    (loginHandler w r).w.body = w.body ++ successJSON ++ lineFeed := by
  have hacc : ¬ Rejected r := by simp [Rejected, hl, hp]
  rw [loginHandler_w_accepted w r hacc, write_body_of_succeed _ _ (by rw [afterRead_w]; exact hw),
    afterRead_w, marshal_loggedIn, List.append_assoc]

/-- C1 witness: a GET request with both credentials in its query. -/
theorem C1_success_body_witness :
    (loginHandler okWriter (getRequest "login=human&password=iamnotbot")).w.body =
      okWriter.body ++ successJSON ++ lineFeed :=
  C1_success_body okWriter (getRequest "login=human&password=iamnotbot")
    (fun _ _ => rfl) (by decide) (by decide)

/-- C1 counterexample: with the right credentials and a writer that takes every byte, the
body written is not the bare success JSON: a line feed follows it. -/
theorem C1_counterexample :
    WritesSucceed okWriter ∧
    login (getRequest "login=human&password=iamnotbot") = "human".toList ∧
    password (getRequest "login=human&password=iamnotbot") = "iamnotbot".toList ∧
    (loginHandler okWriter (getRequest "login=human&password=iamnotbot")).w.body ≠
      okWriter.body ++ successJSON :=
  ⟨fun _ _ => rfl, by decide, by decide, by decide⟩

/-- C2 (as amended): when the form values are anything but ("human", "iamnotbot") and the
writes succeed, the bytes the handler adds to the response body are the failure JSON
followed by one line feed. -/
theorem C2_failure_body (w : ResponseWriter) (r : Request) (hw : WritesSucceed w)
    (h : login r ≠ "human".toList ∨ password r ≠ "iamnotbot".toList) :
    (loginHandler w r).w.body = w.body ++ failureJSON ++ lineFeed := by
  rw [loginHandler_w_rejected w r h, write_body_of_succeed _ _ (by rw [afterRead_w]; exact hw),
    afterRead_w, marshal_wrongLogin, List.append_assoc]

/-- C2 witness: the right login with a password that differs in case. -/
theorem C2_failure_body_witness :
    (loginHandler okWriter (getRequest "login=human&password=IAmNotBot")).w.body =
      okWriter.body ++ failureJSON ++ lineFeed :=
  C2_failure_body okWriter (getRequest "login=human&password=IAmNotBot")
    (fun _ _ => rfl) (by decide)

/-- C2 counterexample: for a request without credentials and a writer that takes every
byte, the body written is not the bare failure JSON: a line feed follows it. -/
theorem C2_counterexample :
    WritesSucceed okWriter ∧
    (login (getRequest "") ≠ "human".toList ∨ password (getRequest "") ≠ "iamnotbot".toList) ∧
    (loginHandler okWriter (getRequest "")).w.body ≠ okWriter.body ++ failureJSON :=
  ⟨fun _ _ => rfl, by decide, by decide⟩

/-- C3 counterexample: a query whose last pair has a bad escape makes `ParseForm` fail, yet
the two credentials before it are read in full and the request is logged in; its response
is not that of a request without credentials. -/
theorem C3_counterexample :
    (ParseForm (getRequest "login=human&password=iamnotbot&x=%zz")).2 =
      some (.EscapeError "%zz".toList) ∧
    login (getRequest "login=human&password=iamnotbot&x=%zz") = "human".toList ∧
    password (getRequest "login=human&password=iamnotbot&x=%zz") = "iamnotbot".toList ∧
    (loginHandler okWriter (getRequest "login=human&password=iamnotbot&x=%zz")).w.body =
      successJSON ++ lineFeed ∧
    (loginHandler okWriter (getRequest "login=human&password=iamnotbot&x=%zz")).w.body ≠
      (loginHandler okWriter (getRequest "")).w.body :=
  ⟨by decide, by decide, by decide, by decide, by decide⟩

/-- C3 (as amended): when form parsing fails with error `e` the handler does not abort: it
logs the failure first and goes on to encode one result, reading login and password from
the pairs of the request that did decode (the first value of each, the empty string when
there is none). So the response is the one of any request with the same decodable pairs,
and of any request reading the same login and password; when login and password are both
read as the empty string it is that of a request carrying no credentials at all: with
writes that succeed, the failure JSON and a line feed. -/
theorem C3_parse_failure (w : ResponseWriter) (r : Request) (e : Error)
    (hfail : (ParseForm r).2 = some e) :
    (loginHandler w r).log.head? = some { text := "Form parse error: ", err := e } ∧
    (∃ v, (loginHandler w r).trace.filter Call.isEncode = [Call.Encode v]) ∧
    (login r = (((requestPairs r).index "login".toList).head?).getD [] ∧
      password r = (((requestPairs r).index "password".toList).head?).getD []) ∧
    (∀ r2, requestPairs r2 = requestPairs r →
      (loginHandler w r2).w = (loginHandler w r).w) ∧
    (∀ r2, login r2 = login r → password r2 = password r →
      (loginHandler w r2).w = (loginHandler w r).w) ∧
    (login r = [] → password r = [] →
      (loginHandler w r).w = (loginHandler w (getRequest "")).w ∧
      (WritesSucceed w → (loginHandler w r).w.body = w.body ++ failureJSON ++ lineFeed)) := by
  have hsame : ∀ r2, login r2 = login r → password r2 = password r →
      (loginHandler w r2).w = (loginHandler w r).w := by
    intro r2 hl hp
    rw [loginHandler_w, loginHandler_w, afterRead_w, afterRead_w]
    simp only [payload, answer, hl, hp]
  have hread : ∀ x : Request, login x = (((requestPairs x).index "login".toList).head?).getD [] ∧
      password x = (((requestPairs x).index "password".toList).head?).getD [] := by
    intro x
    unfold login password
    rw [FormValue_head, FormValue_head, Form_values]
    exact ⟨rfl, rfl⟩
  refine ⟨?_, ⟨answer r, trace_encodes w r⟩, hread r, ?_, hsame, ?_⟩
  · rw [loginHandler_log, hfail]
    rfl
  · intro r2 hpairs
    apply hsame
    · rw [(hread r2).1, (hread r).1, hpairs]
    · rw [(hread r2).2, (hread r).2, hpairs]
  · intro hl hp
    have hrej : Rejected r := Or.inl (by rw [hl]; decide)
    have hrej0 : Rejected (getRequest "") := Or.inl (by decide)
    refine ⟨?_, fun hw => ?_⟩
    · rw [loginHandler_w_rejected w r hrej, loginHandler_w_rejected w _ hrej0, afterRead_w,
        afterRead_w]
    · rw [loginHandler_w_rejected w r hrej,
        write_body_of_succeed _ _ (by rw [afterRead_w]; exact hw), afterRead_w,
        marshal_wrongLogin, List.append_assoc]

/-- C3 witness: a query whose last pair has a bad escape fails to parse; the credentials
before it are read all the same and the response is that of the query without the bad
pair. A query whose only pair has a bad escape gets the response of a request without
credentials. -/
theorem C3_parse_failure_witness :
    (ParseForm (getRequest "login=human&password=iamnotbot&x=%zz")).2 =
      some (.EscapeError "%zz".toList) ∧
    login (getRequest "login=human&password=iamnotbot&x=%zz") = "human".toList ∧
    (loginHandler okWriter (getRequest "login=human&password=iamnotbot")).w =
      (loginHandler okWriter (getRequest "login=human&password=iamnotbot&x=%zz")).w ∧
    (loginHandler okWriter (getRequest "login=%zz")).w =
      (loginHandler okWriter (getRequest "")).w ∧
    (loginHandler okWriter (getRequest "login=%zz")).w.body =
      okWriter.body ++ failureJSON ++ lineFeed :=
  ⟨by decide,
    (C3_parse_failure okWriter (getRequest "login=human&password=iamnotbot&x=%zz")
      (.EscapeError "%zz".toList) (by decide)).2.2.1.1.trans (by decide),
    (C3_parse_failure okWriter (getRequest "login=human&password=iamnotbot&x=%zz")
      (.EscapeError "%zz".toList) (by decide)).2.2.2.1
      (getRequest "login=human&password=iamnotbot") (by decide),
    ((C3_parse_failure okWriter (getRequest "login=%zz") (.EscapeError "%zz".toList)
      (by decide)).2.2.2.2.2 (by decide) (by decide)).1,
    ((C3_parse_failure okWriter (getRequest "login=%zz") (.EscapeError "%zz".toList)
      (by decide)).2.2.2.2.2 (by decide) (by decide)).2 (fun _ _ => rfl)⟩

/-- C4: the handler makes no `WriteHeader` call on either path and leaves the status the
response will be sent with as it was; on a response whose header is not yet written that
status is the default 200 and not 401. On the failure path 401 is the `Code` of the result
that is encoded into the body. -/
theorem C4_status_untouched (w : ResponseWriter) (r : Request) :
    (∀ code, Call.WriteHeader code ∉ (loginHandler w r).trace) ∧
    (loginHandler w r).w.statusCode = w.statusCode ∧
    (w.status = none →
      (loginHandler w r).w.statusCode = StatusOK ∧
      (loginHandler w r).w.statusCode ≠ StatusUnauthorized) ∧
    ((login r ≠ "human".toList ∨ password r ≠ "iamnotbot".toList) →
      Call.Encode (.error { Error := { Code := 401, Description := "Wrong login or password" } })
        ∈ (loginHandler w r).trace) := by
  have hs : (loginHandler w r).w.statusCode = w.statusCode := by
    rw [loginHandler_w, afterRead_w]
    simp [ResponseWriter.Write, ResponseWriter.statusCode]
  refine ⟨?_, hs, ?_, ?_⟩
  · intro code
    rw [loginHandler_trace]
    simp
  · intro hfresh
    rw [hs]
    simp [ResponseWriter.statusCode, hfresh, StatusOK, StatusUnauthorized]
  · intro h
    rw [loginHandler_trace]
    have ha : answer r = wrongLogin := by simp only [answer, if_pos h]
    rw [ha]
    simp [wrongLogin, StatusUnauthorized]

/-- C4 witness: a rejected request on a fresh writer leaves the status at 200, not 401. -/
theorem C4_status_untouched_witness :
    (loginHandler okWriter (getRequest "login=bot")).w.statusCode = StatusOK ∧
    (loginHandler okWriter (getRequest "login=bot")).w.statusCode ≠ StatusUnauthorized :=
  (C4_status_untouched okWriter (getRequest "login=bot")).2.2.1 rfl

/-- C5: for every request and writer the response carries `Access-Control-Allow-Origin: *`
when the handler returns, and the call that sets it is the first call the handler makes:
`ParseForm` comes right after it and everything else later. -/
theorem C5_cors_first (w : ResponseWriter) (r : Request) :
    (loginHandler w r).w.header.Get "Access-Control-Allow-Origin" = "*" ∧
    ∃ rest, (loginHandler w r).trace =
        Call.setCorsAllowAll :: Call.ParseForm (ParseForm r).2 :: rest ∧
      Call.setCorsAllowAll ∉ rest := by
  constructor
  · rw [loginHandler_w, afterRead_w]
    simp [ResponseWriter.Write, Header.Get, Header.Set, List.lookup]
  · rw [loginHandler_trace]
    refine ⟨_, by simp only [List.cons_append, List.nil_append, List.append_assoc]; rfl, ?_⟩
    simp

/-- C6: the handler is deterministic and keeps no state. Run in any two worlds, whatever
the logger of the process holds from earlier invocations and whatever was called before,
on equally behaving writers and on requests that agree on the outcome of `ParseForm` and
on the two values read, it leaves the same headers, status and body: those of a first
invocation, fixed by the writer and the two values alone. What the worlds held stays as it
was, and each gains the same warnings and the same calls, those of a first invocation. -/
theorem C6_deterministic (s1 s2 : World) (r1 r2 : Request) (hw : s1.w = s2.w)
    (herr : (ParseForm r1).2 = (ParseForm r2).2) (hl : login r1 = login r2)
    (hp : password r1 = password r2) :
    loginHandler s1.w r1 = loginHandler s2.w r2 ∧
    ((loginHandlerFrom s1 r1).w = (loginHandler s1.w r1).w ∧
      (loginHandlerFrom s2 r2).w = (loginHandler s1.w r1).w) ∧
    ((loginHandlerFrom s1 r1).log = s1.log ++ (loginHandler s1.w r1).log ∧
      (loginHandlerFrom s2 r2).log = s2.log ++ (loginHandler s1.w r1).log) ∧
    ((loginHandlerFrom s1 r1).trace = s1.trace ++ (loginHandler s1.w r1).trace ∧
      (loginHandlerFrom s2 r2).trace = s2.trace ++ (loginHandler s1.w r1).trace) ∧
    (loginHandlerFrom s1 r1).w =
      (ResponseWriter.Write
        { s1.w with header := s1.w.header.Set "Access-Control-Allow-Origin" "*" }
        (marshal (if login r1 ≠ "human".toList ∨ password r1 ≠ "iamnotbot".toList
          then wrongLogin else loggedIn) ++ lineFeed)).1 := by
  have hread : afterRead (fresh s2.w) r1 = afterRead (fresh s2.w) r2 := by
    unfold afterRead afterParse
    rw [herr]
  have hsame : loginHandler s1.w r1 = loginHandler s2.w r2 := by
    unfold loginHandler loginHandlerFrom
    rw [hw, hl, hp, hread]
  have hframe : ∀ (s : World) (r : Request),
      (loginHandlerFrom s r).w = (loginHandler s.w r).w ∧
      (loginHandlerFrom s r).log = s.log ++ (loginHandler s.w r).log ∧
      (loginHandlerFrom s r).trace = s.trace ++ (loginHandler s.w r).trace := by
    intro s r
    refine ⟨?_, ?_, ?_⟩
    · unfold loginHandler
      rw [from_w, from_w]
      rfl
    · rw [loginHandler_log, from_log]
    · rw [loginHandler_trace, from_trace]
  refine ⟨hsame, ⟨(hframe s1 r1).1, ?_⟩, ⟨(hframe s1 r1).2.1, ?_⟩, ⟨(hframe s1 r1).2.2, ?_⟩,
    from_w s1 r1⟩
  · rw [hsame]
    exact (hframe s2 r2).1
  · rw [hsame]
    exact (hframe s2 r2).2.1
  · rw [hsame]
    exact (hframe s2 r2).2.2

/-- C6 witness: the credentials sent in the query of a GET, in a process whose logger
holds an earlier warning, and in the body of a POST, in a process that has logged
nothing: the same response, and the earlier warning is all the first log holds. -/
theorem C6_deterministic_witness :
    loginHandler okWriter (getRequest "login=human&password=iamnotbot") =
      loginHandler okWriter (postRequest "login=human&password=iamnotbot" "") ∧
    (loginHandlerFrom (usedWorld okWriter) (getRequest "login=human&password=iamnotbot")).w =
      (loginHandlerFrom (fresh okWriter) (postRequest "login=human&password=iamnotbot" "")).w ∧
    (loginHandlerFrom (usedWorld okWriter) (getRequest "login=human&password=iamnotbot")).log =
      [{ text := "Form parse error: ", err := .missingFormBody }] :=
  ⟨(C6_deterministic (usedWorld okWriter) (fresh okWriter)
      (getRequest "login=human&password=iamnotbot")
      (postRequest "login=human&password=iamnotbot" "") rfl (by decide) (by decide)
      (by decide)).1,
    ((C6_deterministic (usedWorld okWriter) (fresh okWriter)
      (getRequest "login=human&password=iamnotbot")
      (postRequest "login=human&password=iamnotbot" "") rfl (by decide) (by decide)
      (by decide)).2.1.1).trans
    ((C6_deterministic (usedWorld okWriter) (fresh okWriter)
      (getRequest "login=human&password=iamnotbot")
      (postRequest "login=human&password=iamnotbot" "") rfl (by decide) (by decide)
      (by decide)).2.1.2).symm,
    ((C6_deterministic (usedWorld okWriter) (fresh okWriter)
      (getRequest "login=human&password=iamnotbot")
      (postRequest "login=human&password=iamnotbot" "") rfl (by decide) (by decide)
      (by decide)).2.2.1.1).trans (by decide)⟩

/-- C7: for every request and every writer, failing or not, the handler makes exactly one
`Encode` call, on the failure result or on the success result, and through it exactly one
`Write`; the body grows by the bytes of that result which the writer took and by nothing
else. -/
theorem C7_one_attempt (w : ResponseWriter) (r : Request) :
    ∃ v, (v = wrongLogin ∨ v = loggedIn) ∧
      (loginHandler w r).trace.filter Call.isEncode = [Call.Encode v] ∧
      (loginHandler w r).trace.filter Call.isWrite =
        [Call.Write (marshal v ++ lineFeed) (w.accept w.body (marshal v ++ lineFeed)).1
          (w.accept w.body (marshal v ++ lineFeed)).2] ∧
      (loginHandler w r).w.body =
        w.body ++ (marshal v ++ lineFeed).take (w.accept w.body (marshal v ++ lineFeed)).1 :=
  ⟨answer r, answer_cases r, trace_encodes w r, trace_writes w r, loginHandler_body w r⟩

/-- C8: the warnings logged are one for a failed `ParseForm`, if it failed, followed by one
for a failed `Write` of the encoder, if it failed, and no other: none when both succeed,
and never more than two. -/
theorem C8_warnings (w : ResponseWriter) (r : Request) :
    ∃ p n werr, (loginHandler w r).trace.filter Call.isWrite = [Call.Write p n werr] ∧
      (loginHandler w r).log =
        (ParseForm r).2.toList.map (Warning.mk "Form parse error: ") ++
          werr.toList.map (Warning.mk "ErrorResult encode error: ") ∧
      (loginHandler w r).log.length =
        (if (ParseForm r).2 = none then 0 else 1) + (if werr = none then 0 else 1) ∧
      (loginHandler w r).log.length ≤ 2 ∧
      ((loginHandler w r).log = [] ↔ (ParseForm r).2 = none ∧ werr = none) := by
  refine ⟨_, _, _, trace_writes w r, loginHandler_log w r, ?_, ?_, ?_⟩ <;>
    rw [loginHandler_log] <;>
    cases (ParseForm r).2 <;> cases (w.accept w.body (payload r)).2 <;> simp

/-- C9: two rejected requests served on equally behaving writers leave the same response:
the same headers, status and body, whichever field was wrong and whatever was sent. -/
theorem C9_rejection_uniform (w : ResponseWriter) (r1 r2 : Request)
    (h1 : login r1 ≠ "human".toList ∨ password r1 ≠ "iamnotbot".toList)
    (h2 : login r2 ≠ "human".toList ∨ password r2 ≠ "iamnotbot".toList) :
    (loginHandler w r1).w = (loginHandler w r2).w ∧
    (loginHandler w r1).w.body = (loginHandler w r2).w.body := by
  have h : (loginHandler w r1).w = (loginHandler w r2).w := by
    rw [loginHandler_w_rejected w r1 h1, loginHandler_w_rejected w r2 h2, afterRead_w,
      afterRead_w]
  exact ⟨h, by rw [h]⟩

/-- C9 witness: a wrong password next to the right login, and a request without a login. -/
theorem C9_rejection_uniform_witness :
    (loginHandler okWriter (getRequest "login=human&password=secret")).w.body =
      (loginHandler okWriter (getRequest "password=iamnotbot")).w.body :=
  (C9_rejection_uniform okWriter (getRequest "login=human&password=secret")
    (getRequest "password=iamnotbot") (Or.inr (by decide)) (Or.inl (by decide))).2

/-- C10: the values the handler reads from are the pairs of the request that decode, in
the order in which the request carries them, those of the body before those of the URL
query: for a body and a query that list plain pairs as `k=v` pieces joined by `&`, they are
the pairs of the body followed by the pairs of the query. The handler encodes the success
result exactly when the first value of login among them is "human" and the first value of
password is "iamnotbot", and the failure result otherwise, whatever values follow. -/
theorem C10_first_values (w : ResponseWriter) (r : Request) :
    (ParseForm r).1.Form = requestPairs r ∧
    (∀ bs qs : List (GoString × GoString), (∀ kv ∈ bs ++ qs, Plain kv.1 ∧ Plain kv.2) →
      bodyText r = formText bs → queryText r = formText qs → requestPairs r = bs ++ qs) ∧
    ((((requestPairs r).index "login".toList).head? = some "human".toList ∧
      ((requestPairs r).index "password".toList).head? = some "iamnotbot".toList) →
      (loginHandler w r).trace.filter Call.isEncode = [Call.Encode loggedIn]) ∧
    (¬ (((requestPairs r).index "login".toList).head? = some "human".toList ∧
      ((requestPairs r).index "password".toList).head? = some "iamnotbot".toList) →
      (loginHandler w r).trace.filter Call.isEncode = [Call.Encode wrongLogin]) := by
  have hlog : login r = (((requestPairs r).index "login".toList).head?).getD [] := by
    unfold login
    rw [FormValue_head, Form_values]
  have hpw : password r = (((requestPairs r).index "password".toList).head?).getD [] := by
    unfold password
    rw [FormValue_head, Form_values]
  refine ⟨Form_values r, ?_, ?_, ?_⟩
  · intro bs qs hplain hb hq
    unfold requestPairs
    rw [hb, hq, validPairs_formText bs (fun kv h => hplain kv (List.mem_append.mpr (Or.inl h))),
      validPairs_formText qs (fun kv h => hplain kv (List.mem_append.mpr (Or.inr h)))]
  · rintro ⟨h1, h2⟩
    have hl2 : login r = "human".toList := by rw [hlog, h1]; rfl
    have hp2 : password r = "iamnotbot".toList := by rw [hpw, h2]; rfl
    have hacc : ¬ (login r ≠ "human".toList ∨ password r ≠ "iamnotbot".toList) :=
      fun hc => hc.elim (fun h => h hl2) (fun h => h hp2)
    rw [trace_encodes]
    simp only [answer, if_neg hacc]
  · intro h
    rw [trace_encodes]
    have hrej : login r ≠ "human".toList ∨ password r ≠ "iamnotbot".toList := by
      rw [hlog, hpw]
      by_contra hc
      apply h
      have h1 := not_not.mp (fun h1 => hc (Or.inl h1))
      have h2 := not_not.mp (fun h2 => hc (Or.inr h2))
      constructor
      · cases hx : ((requestPairs r).index "login".toList).head? with
        | none => rw [hx] at h1; exact absurd h1 (by decide)
        | some v => rw [hx] at h1; exact congrArg some h1
      · cases hx : ((requestPairs r).index "password".toList).head? with
        | none => rw [hx] at h2; exact absurd h2 (by decide)
        | some v => rw [hx] at h2; exact congrArg some h2
    simp only [answer, if_pos hrej]

/-- C10 witness: a query that gives a wrong login first and the right one after it is
read in that order and rejected; a body that gives the right pair first, with other values
after it in the body and in the query, is read body first and accepted. -/
theorem C10_first_values_witness :
    requestPairs (getRequest "login=bot&login=human&password=iamnotbot") =
      [("login".toList, "bot".toList), ("login".toList, "human".toList),
        ("password".toList, "iamnotbot".toList)] ∧
    (loginHandler okWriter
        (getRequest "login=bot&login=human&password=iamnotbot")).trace.filter Call.isEncode =
      [Call.Encode wrongLogin] ∧
    requestPairs (postRequest "login=human&login=bot&password=iamnotbot" "password=x&login=y") =
      [("login".toList, "human".toList), ("login".toList, "bot".toList),
        ("password".toList, "iamnotbot".toList), ("password".toList, "x".toList),
        ("login".toList, "y".toList)] ∧
    (loginHandler okWriter
        (postRequest "login=human&login=bot&password=iamnotbot" "password=x&login=y")).trace.filter
        Call.isEncode = [Call.Encode loggedIn] :=
  ⟨(C10_first_values okWriter (getRequest "login=bot&login=human&password=iamnotbot")).2.1
      []
      [("login".toList, "bot".toList), ("login".toList, "human".toList),
        ("password".toList, "iamnotbot".toList)]
      (by decide) (by decide) (by decide),
    (C10_first_values okWriter
      (getRequest "login=bot&login=human&password=iamnotbot")).2.2.2 (by decide),
    (C10_first_values okWriter
      (postRequest "login=human&login=bot&password=iamnotbot" "password=x&login=y")).2.1
      [("login".toList, "human".toList), ("login".toList, "bot".toList),
        ("password".toList, "iamnotbot".toList)]
      [("password".toList, "x".toList), ("login".toList, "y".toList)]
      (by decide) (by decide) (by decide),
    (C10_first_values okWriter
      (postRequest "login=human&login=bot&password=iamnotbot" "password=x&login=y")).2.2.1
      ⟨by decide, by decide⟩⟩

end Server
